import Mathlib

/-!
Verification of the DFW property-search client state logic.

The definitions below are a shallow embedding of the TypeScript sources:
the type declarations (`types.ts`), the Zustand map store (`mapStore.ts`),
filter store (`filterStore.ts`) and auth store (`authStore.ts`), the
query-result effect of `PropertyMap.tsx`, and the `staleTime` constants of
the react-query configuration.  JavaScript numbers are embedded as `Rat`
(JSON numbers), `x | null` as `Option`, and optional interface fields as
`Option` as well.
-/

namespace DFW

/-! ## Data model (types.ts) -/

/-- GeoJSON coordinates union: number[] | number[][] | number[][][] | number[][][][]. -/
inductive Coords where
  | d1 (xs : List Rat)
  | d2 (xs : List (List Rat))
  | d3 (xs : List (List (List Rat)))
  | d4 (xs : List (List (List (List Rat))))
deriving DecidableEq, Repr

/-- GeoJSONGeometry: a type tag (one of the seven GeoJSON kind strings at
runtime) and coordinates. -/
structure GeoJSONGeometry where
  type : String
  coordinates : Coords
deriving DecidableEq, Repr

/-- ParcelProperties from types.ts. -/
structure ParcelProperties where
  parcel_id : String
  address : Option String
  price : Option Rat
  size_sqft : Option Rat
  county : Option String
deriving DecidableEq, Repr

/-- ParcelFeature from types.ts (the literal `type: 'Feature'` tag carries
no information and is dropped). -/
structure ParcelFeature where
  properties : ParcelProperties
  geometry : Option GeoJSONGeometry
deriving DecidableEq, Repr

/-- Access tier: 'guest' | 'registered'. -/
inductive AccessLevel where
  | guest
  | registered
deriving DecidableEq, Repr

/-- PriceRange from types.ts. -/
structure PriceRange where
  min : Option Rat
  max : Option Rat
deriving DecidableEq, Repr

/-- SizeRange from types.ts. -/
structure SizeRange where
  min : Option Rat
  max : Option Rat
deriving DecidableEq, Repr

/-- FilterCriteria from types.ts; all three fields are optional
(`priceRange?`, `sizeRange?`, `counties?`), hence `Option`. -/
structure FilterCriteria where
  priceRange : Option PriceRange
  sizeRange : Option SizeRange
  counties : Option (List String)
deriving DecidableEq, Repr

/-- Metadata of a search FeatureCollection from types.ts. -/
structure SearchMetadata where
  total : Rat
  returned : Rat
  hasMore : Bool
  accessLevel : AccessLevel
  appliedFilters : Option FilterCriteria
deriving DecidableEq, Repr

/-- FeatureCollection from types.ts: the ResultSet shape returned by the
search endpoint. -/
structure FeatureCollection where
  features : List ParcelFeature
  metadata : SearchMetadata
deriving DecidableEq, Repr

/-- Preference from types.ts: a named, saved FilterCriteria. -/
structure Preference where
  id : String
  name : String
  filters : FilterCriteria
  isDefault : Bool
  created_at : String
  updated_at : String
deriving DecidableEq, Repr

/-- User from types.ts. -/
structure User where
  id : String
  email : String
  username : Option String
deriving DecidableEq, Repr

end DFW

namespace DFW.FilterStore

/-! ## Filter store (filterStore.ts) -/

/-- FilterState of the Zustand filter store (the action closures are
modelled as the functions below). -/
structure FilterState where
  filters : FilterCriteria
  savedPreferences : List Preference
  activePreferenceId : Option String
  isFiltersOpen : Bool
deriving DecidableEq, Repr

/-- defaultFilters constant of filterStore.ts. -/
def defaultFilters : FilterCriteria :=
  { priceRange := some { min := none, max := none }
    sizeRange := some { min := none, max := none }
    counties := some [] }

/-- Initial filter-store state: `filters: { ...defaultFilters }`,
no saved preferences, no active preference, panel closed. -/
def initialState : FilterState :=
  { filters := defaultFilters
    savedPreferences := []
    activePreferenceId := none
    isFiltersOpen := false }

/-- setFilters action: replaces filters and clears the active preset id. -/
def setFilters (s : FilterState) (filters : FilterCriteria) : FilterState :=
  { s with filters := filters, activePreferenceId := none }

/-- updatePriceRange action: `{ ...state.filters, priceRange: { min, max } }`
and clears the active preset id. -/
def updatePriceRange (s : FilterState) (min max : Option Rat) : FilterState :=
  { s with
      filters := { s.filters with priceRange := some { min := min, max := max } }
      activePreferenceId := none }

/-- updateSizeRange action: `{ ...state.filters, sizeRange: { min, max } }`
and clears the active preset id. -/
def updateSizeRange (s : FilterState) (min max : Option Rat) : FilterState :=
  { s with
      filters := { s.filters with sizeRange := some { min := min, max := max } }
      activePreferenceId := none }

/-- updateCounties action: `{ ...state.filters, counties }` and clears the
active preset id. -/
def updateCounties (s : FilterState) (counties : List String) : FilterState :=
  { s with
      filters := { s.filters with counties := some counties }
      activePreferenceId := none }

/-- clearFilters action: `filters: { ...defaultFilters }` (a fresh copy of
the default criteria, value-equal to `defaultFilters`) and clears the
active preset id. -/
def clearFilters (s : FilterState) : FilterState :=
  { s with filters := defaultFilters, activePreferenceId := none }

/-- applyPreset action: `filters: { ...preset }` (a shallow copy,
value-equal to the preset) and clears the active preset id. -/
def applyPreset (s : FilterState) (preset : FilterCriteria) : FilterState :=
  { s with filters := preset, activePreferenceId := none }

/-- setSavedPreferences action. -/
def setSavedPreferences (s : FilterState) (preferences : List Preference) : FilterState :=
  { s with savedPreferences := preferences }

/-- setActivePreference action: `!id` (null or the empty string) only
clears the marker; otherwise the saved preference with that id, when
found, has its filters copied in; either way the marker is set to id. -/
def setActivePreference (s : FilterState) (id : Option String) : FilterState :=
  match id with
  | none => { s with activePreferenceId := none }
  | some i =>
      if i = "" then { s with activePreferenceId := none }
      else
        match s.savedPreferences.find? (fun p => p.id == i) with
        | some preference =>
            { s with activePreferenceId := some i, filters := preference.filters }
        | none => { s with activePreferenceId := some i }

/-- The filter-editing actions of the store, for quantifying over
arbitrary edit sequences. -/
inductive FilterEdit where
  | setFilters (f : FilterCriteria)
  | updatePriceRange (min max : Option Rat)
  | updateSizeRange (min max : Option Rat)
  | updateCounties (cs : List String)
  | applyPreset (p : FilterCriteria)
  | setSavedPreferences (ps : List Preference)
  | setActivePreference (id : Option String)
deriving Repr

/-- Apply one filter-store action. -/
def applyEdit (s : FilterState) : FilterEdit → FilterState
  | .setFilters f => setFilters s f
  | .updatePriceRange mn mx => updatePriceRange s mn mx
  | .updateSizeRange mn mx => updateSizeRange s mn mx
  | .updateCounties cs => updateCounties s cs
  | .applyPreset p => applyPreset s p
  | .setSavedPreferences ps => setSavedPreferences s ps
  | .setActivePreference id => setActivePreference s id

/-- Apply a sequence of filter-store actions in order. -/
def applyEdits (s : FilterState) (es : List FilterEdit) : FilterState :=
  es.foldl applyEdit s

end DFW.FilterStore

namespace DFW.MapStore

/-! ## Map store (mapStore.ts) -/

/-- Viewport bounds held by the map store (`bounds` field), in degrees. -/
structure MapBounds where
  north : Rat
  south : Rat
  east : Rat
  west : Rat
deriving DecidableEq, Repr

/-- Map style: 'dark' | 'satellite' | 'streets'. -/
inductive MapStyle where
  | dark
  | satellite
  | streets
deriving DecidableEq, Repr

/-- MapState of the Zustand map store (the action closures are modelled as
the functions below). -/
structure MapState where
  center : Rat × Rat
  zoom : Rat
  bounds : Option MapBounds
  parcels : List ParcelFeature
  totalParcels : Rat
  isLoading : Bool
  error : Option String
  accessLevel : AccessLevel
  selectedParcel : Option ParcelFeature
  hoveredParcelId : Option String
  mapStyle : MapStyle
  showClusters : Bool
  showHeatmap : Bool
deriving DecidableEq, Repr

/-- setParcels action: replaces the parcel data wholesale from a
FeatureCollection, clears the loading flag and the error. -/
def setParcels (s : MapState) (data : FeatureCollection) : MapState :=
  { s with
      parcels := data.features
      totalParcels := data.metadata.total
      accessLevel := data.metadata.accessLevel
      isLoading := false
      error := none }

/-- setLoading action. -/
def setLoading (s : MapState) (isLoading : Bool) : MapState :=
  { s with isLoading := isLoading }

/-- setError action: records the error and clears the loading flag;
parcels and totalParcels are untouched. -/
def setError (s : MapState) (error : Option String) : MapState :=
  { s with error := error, isLoading := false }

/-- setBounds action. -/
def setBounds (s : MapState) (bounds : Option MapBounds) : MapState :=
  { s with bounds := bounds }

/-- clearParcels action. -/
def clearParcels (s : MapState) : MapState :=
  { s with parcels := [], totalParcels := 0, selectedParcel := none, error := none }

end DFW.MapStore

namespace DFW.Query

/-! ## Query Coordinator (PropertyMap.tsx useQuery + query-result effect) -/

open DFW.MapStore

/-- bboxString computed in PropertyMap.tsx:
`west,south,east,north` when bounds are known, undefined otherwise. -/
def bboxString (bounds : Option MapBounds) : Option String :=
  bounds.map (fun b =>
    toString b.west ++ "," ++ toString b.south ++ "," ++
    toString b.east ++ "," ++ toString b.north)

/-- FetchKey: the queryKey `['parcels', filters, bboxString, isAuthenticated]`
of the parcels query (the constant first component is dropped). -/
structure FetchKey where
  filters : FilterCriteria
  bbox : Option String
  isAuthenticated : Bool
deriving DecidableEq, Repr

/-- Build the fetch key exactly as PropertyMap.tsx does from the filter
store, the map store bounds and the auth store flag. -/
def mkFetchKey (filters : FilterCriteria) (bounds : Option MapBounds)
    (isAuthenticated : Bool) : FetchKey :=
  { filters := filters, bbox := bboxString bounds, isAuthenticated := isAuthenticated }

/-- staleTime of the parcels query in PropertyMap.tsx, in milliseconds. -/
def parcelsStaleTime : Nat := 30000

/-- Default staleTime of the app QueryClient (main.tsx):
`5 * 60 * 1000` milliseconds. -/
def defaultStaleTime : Nat := 5 * 60 * 1000

/-- Modelled from the spec: react-query's freshness check is library code
not under src/.  Per the staleness policy, a previously fetched result for
an unchanged key is served without re-fetching while its age is within the
staleTime window; once the window has expired, the next evaluation of the
key forces a re-fetch. -/
def servedWithoutRefetch (staleTime fetchedAt now : Nat) : Bool :=
  now - fetchedAt ≤ staleTime

/-- The query-result effect of PropertyMap.tsx: `setLoading(isLoading)`,
then `setParcels(data)` when data is present, then `setError(...)` when an
error is present. -/
def applyQueryResult (s : MapState) (isLoading : Bool)
    (data : Option FeatureCollection) (error : Option String) : MapState :=
  let s1 := setLoading s isLoading
  let s2 := match data with
    | some d => setParcels s1 d
    | none => s1
  match error with
  | some m => setError s2 (some m)
  | none => s2

/-- Outcome of a settled parcels fetch: the backend either returned a
FeatureCollection or the request failed with an error message. -/
inductive FetchOutcome where
  | success (data : FeatureCollection)
  | failure (message : String)
deriving Repr

/-- Effect of a settled fetch on the map store, through the query-result
effect: loading is over, and exactly one of data / error is present. -/
def applyFetchOutcome (s : MapState) : FetchOutcome → MapState
  | .success d => applyQueryResult s false (some d) none
  | .failure m => applyQueryResult s false none (some m)

/-- Modelled from the spec: react-query's per-key observer bookkeeping is
library code not under src/.  The coordinator tracks the current fetch key
(none while the query is disabled, i.e. bounds are unknown) and the map
store it writes results into. -/
structure Coordinator where
  currentKey : Option FetchKey
  store : MapState
deriving DecidableEq, Repr

/-- Events seen by the coordinator: the key changes (filters, bounds or
auth changed), or an in-flight fetch for the key it was issued under
settles. -/
inductive FetchEvent where
  | keyChange (k : Option FetchKey)
  | resolve (k : FetchKey) (data : FeatureCollection)
  | fail (k : FetchKey) (message : String)
deriving Repr

/-- Modelled from the spec: a settling fetch is applied to the store only
when its key still equals the current key (key-equality at resolution
time, no cancellation); a stale settlement is discarded without touching
the store. -/
def coordStep (c : Coordinator) : FetchEvent → Coordinator
  | .keyChange k => { c with currentKey := k }
  | .resolve k data =>
      if c.currentKey = some k then
        { c with store := applyFetchOutcome c.store (.success data) }
      else c
  | .fail k message =>
      if c.currentKey = some k then
        { c with store := applyFetchOutcome c.store (.failure message) }
      else c

/-- Run the coordinator over a sequence of events. -/
def coordRun (c : Coordinator) (es : List FetchEvent) : Coordinator :=
  es.foldl coordStep c

end DFW.Query

namespace DFW.AuthStore

/-! ## Auth store (authStore.ts) -/

/-- AuthState of the Zustand auth store (the action closures are modelled
as the functions below). -/
structure AuthState where
  user : Option User
  token : Option String
  isAuthenticated : Bool
  isLoading : Bool
  error : Option String
deriving DecidableEq, Repr

/-- Initial auth-store state from authStore.ts. -/
def initialState : AuthState :=
  { user := none
    token := none
    isAuthenticated := false
    isLoading := true
    error := none }

/-- Outcome of the external identity-provider interaction during `login`:
either `cognito.signIn` resolved with a session (whose id token is
`token`) and `cognito.getCurrentUser` resolved with `user` (possibly
null), or the awaited chain threw — `some message` when the thrown value
is an `Error` carrying that message, `none` for a non-`Error` throw. -/
inductive LoginOutcome where
  | success (token : String) (user : Option User)
  | failure (message : Option String)
deriving Repr

/-- login action: returns the new state and whether the returned promise
resolves (`true`) or rejects (`false`, the catch block re-throws).  On
success the user, token and flag are set and loading/error cleared; on
failure everything is cleared and the error message recorded
(`'Login failed'` for a non-`Error` throw). -/
def login (s : AuthState) (outcome : LoginOutcome) : AuthState × Bool :=
  let s1 := { s with isLoading := true, error := none }
  match outcome with
  | .success token user =>
      ({ s1 with
          user := user
          token := some token
          isAuthenticated := true
          isLoading := false
          error := none }, true)
  | .failure message =>
      ({ s1 with
          user := none
          token := none
          isAuthenticated := false
          isLoading := false
          error := some (message.getD "Login failed") }, false)

/-- Outcome of the identity-provider session check during the startup
initialization: a valid session (with its id token and the current user),
or no valid session / a thrown error (both branches write the same
state). -/
inductive SessionOutcome where
  | validSession (token : String) (user : Option User)
  | noSession
deriving Repr

/-- Startup initialization action of authStore.ts, as a function of the
session-check outcome. -/
def initSession (s : AuthState) (outcome : SessionOutcome) : AuthState :=
  let s1 := { s with isLoading := true, error := none }
  match outcome with
  | .validSession token user =>
      { s1 with
          user := user
          token := some token
          isAuthenticated := true
          isLoading := false }
  | .noSession =>
      { s1 with
          user := none
          token := none
          isAuthenticated := false
          isLoading := false }

/-- logout action: signs out of the identity provider (external side
effect) and clears user, token, flag and error. -/
def logout (s : AuthState) : AuthState :=
  { s with user := none, token := none, isAuthenticated := false, error := none }

/-- setUser action: `set({ user, isAuthenticated: !!user })` — the flag is
derived from the user value alone; token untouched. -/
def setUser (s : AuthState) (user : Option User) : AuthState :=
  { s with user := user, isAuthenticated := user.isSome }

/-- setToken action. -/
def setToken (s : AuthState) (token : Option String) : AuthState :=
  { s with token := token }

/-- setError action. -/
def setError (s : AuthState) (error : Option String) : AuthState :=
  { s with error := error }

/-- clearError action. -/
def clearError (s : AuthState) : AuthState :=
  { s with error := none }

/-- The auth-store actions, each completed network interaction tagged with
its outcome, for quantifying over reachable states. -/
inductive AuthAction where
  | initSession (o : SessionOutcome)
  | login (o : LoginOutcome)
  | logout
  | setUser (u : Option User)
  | setToken (t : Option String)
  | setError (e : Option String)
  | clearError
deriving Repr

/-- Apply one auth-store action (for `login`, the state after the promise
settles). -/
def applyAction (s : AuthState) : AuthAction → AuthState
  | .initSession o => initSession s o
  | .login o => (login s o).1
  | .logout => logout s
  | .setUser u => setUser s u
  | .setToken t => setToken s t
  | .setError e => setError s e
  | .clearError => clearError s

/-- Apply a sequence of auth-store actions in order. -/
def applyActions (s : AuthState) (as : List AuthAction) : AuthState :=
  as.foldl applyAction s

/-- A state of the auth store reachable from the initial state by store
actions. -/
def Reachable (s : AuthState) : Prop :=
  ∃ as : List AuthAction, applyActions initialState as = s

/-- Shape of the object the persist middleware writes to client-side
storage: the `partialize` option of authStore.ts keeps only the
`isAuthenticated` flag. -/
structure PersistedAuthState where
  isAuthenticated : Bool
deriving DecidableEq, Repr

/-- The `partialize` projection of authStore.ts: the persisted slice of
the auth state. -/
def persistedSlice (s : AuthState) : PersistedAuthState :=
  { isAuthenticated := s.isAuthenticated }

end DFW.AuthStore

namespace DFW.Samples

/-! ## Concrete sample values used by the witnesses -/

/-- A concrete user. -/
def user1 : User := { id := "user-123", email := "test@example.com", username := none }

/-- A concrete parcel feature. -/
def parcel1 : ParcelFeature :=
  { properties :=
      { parcel_id := "p-1"
        address := some "1 Main St"
        price := some 100000
        size_sqft := some 900
        county := some "Dallas" }
    geometry := some { type := "Point", coordinates := .d1 [-96, 32] } }

/-- A concrete one-parcel registered-tier result set. -/
def collection1 : FeatureCollection :=
  { features := [parcel1]
    metadata :=
      { total := 1, returned := 1, hasMore := false
        accessLevel := .registered, appliedFilters := none } }

/-- A concrete empty guest-tier result set. -/
def collection2 : FeatureCollection :=
  { features := []
    metadata :=
      { total := 0, returned := 0, hasMore := false
        accessLevel := .guest, appliedFilters := none } }

/-- A concrete map-store state. -/
def mapState1 : MapStore.MapState :=
  { center := (-96, 32), zoom := 10, bounds := none
    parcels := [], totalParcels := 0, isLoading := false, error := none
    accessLevel := .guest, selectedParcel := none, hoveredParcelId := none
    mapStyle := .streets, showClusters := true, showHeatmap := false }

/-- Fetch key for an unauthenticated session with default filters. -/
def keyGuest : Query.FetchKey :=
  { filters := FilterStore.defaultFilters, bbox := none, isAuthenticated := false }

/-- Fetch key for an authenticated session with default filters. -/
def keyAuth : Query.FetchKey :=
  { filters := FilterStore.defaultFilters, bbox := none, isAuthenticated := true }

/-- A concrete coordinator whose current key is `keyAuth`. -/
def coord1 : Query.Coordinator := { currentKey := some keyAuth, store := mapState1 }

/-- A concrete saved preference. -/
def pref1 : Preference :=
  { id := "pref-1"
    name := "Starter Homes"
    filters :=
      { priceRange := some { min := some 100000, max := some 250000 }
        sizeRange := some { min := some 800, max := some 1500 }
        counties := none }
    isDefault := false
    created_at := "2026-01-01"
    updated_at := "2026-01-01" }

/-- A concrete filter-store state holding `pref1`. -/
def filterState1 : FilterStore.FilterState :=
  { FilterStore.initialState with savedPreferences := [pref1] }

end DFW.Samples

namespace DFW

/-! ## Claims -/

/-- C1: last key wins — if K1's fetch is still pending when the key
changes to K2, K1's resolution never overwrites the Result Cache
(parcels/totalParcels/accessLevel) once K2 is current (decided by
key-equality at resolution time, not by cancellation), and the displayed
ResultSet reflects K2's eventual result. -/
theorem c1_last_key_wins (c : Query.Coordinator) (k1 k2 : Query.FetchKey)
    (d1 d2 : FeatureCollection) (hne : k1 ≠ k2) (hcur : c.currentKey = some k2) :
    Query.coordStep c (.resolve k1 d1) = c ∧
    (Query.coordStep c (.resolve k2 d2)).store.parcels = d2.features ∧
    (Query.coordStep c (.resolve k2 d2)).store.totalParcels = d2.metadata.total ∧
    (Query.coordStep c (.resolve k2 d2)).store.accessLevel = d2.metadata.accessLevel := by
  refine ⟨?_, ?_, ?_, ?_⟩ <;>
    simp [Query.coordStep, hcur, Ne.symm hne, Query.applyFetchOutcome,
      Query.applyQueryResult, MapStore.setParcels, MapStore.setLoading]

/-- Witness for C1 at concrete inputs: the key changed from the guest key
to the authenticated key; the guest resolution is discarded, the
authenticated one lands. -/
theorem c1_last_key_wins_witness :
    Query.coordStep Samples.coord1 (.resolve Samples.keyGuest Samples.collection2) =
      Samples.coord1 ∧
    (Query.coordStep Samples.coord1
        (.resolve Samples.keyAuth Samples.collection1)).store.parcels =
      Samples.collection1.features ∧
    (Query.coordStep Samples.coord1
        (.resolve Samples.keyAuth Samples.collection1)).store.totalParcels =
      Samples.collection1.metadata.total ∧
    (Query.coordStep Samples.coord1
        (.resolve Samples.keyAuth Samples.collection1)).store.accessLevel =
      Samples.collection1.metadata.accessLevel :=
  c1_last_key_wins Samples.coord1 Samples.keyGuest Samples.keyAuth
    Samples.collection2 Samples.collection1 (by decide) rfl

/-- C2: for every store state, a failed fetch records the error message
and clears the loading flag while parcels and totalParcels keep their last
good value; a successful fetch replaces the Result Cache wholesale with
the new ResultSet, clears the loading flag and the error. -/
theorem c2_fetch_outcome (s : MapStore.MapState) (d : FeatureCollection) (m : String) :
    (Query.applyFetchOutcome s (.failure m)).error = some m ∧
    (Query.applyFetchOutcome s (.failure m)).isLoading = false ∧
    (Query.applyFetchOutcome s (.failure m)).parcels = s.parcels ∧
    (Query.applyFetchOutcome s (.failure m)).totalParcels = s.totalParcels ∧
    (Query.applyFetchOutcome s (.success d)).parcels = d.features ∧
    (Query.applyFetchOutcome s (.success d)).totalParcels = d.metadata.total ∧
    (Query.applyFetchOutcome s (.success d)).accessLevel = d.metadata.accessLevel ∧
    (Query.applyFetchOutcome s (.success d)).isLoading = false ∧
    (Query.applyFetchOutcome s (.success d)).error = none := by
  refine ⟨?_, ?_, ?_, ?_, ?_, ?_, ?_, ?_, ?_⟩ <;>
    simp [Query.applyFetchOutcome, Query.applyQueryResult,
      MapStore.setParcels, MapStore.setLoading, MapStore.setError]

/-- C3 counterexample: the parcels query's freshness window is 30000 ms
(30 seconds), not a few minutes — two minutes after a fetch, the unchanged
key is no longer served without re-fetching. -/
theorem c3_counterexample :
    Query.parcelsStaleTime = 30000 ∧
    Query.servedWithoutRefetch Query.parcelsStaleTime 0 120000 = false ∧
    30000 < 120000 := by
  decide

/-- C3 (amended): for an unchanged parcels fetch key, a previous result is
served without re-fetching exactly while its age is within the 30-second
window set on the parcels query; past the window the next evaluation
forces a re-fetch.  The app-wide default window (for queries that do not
override it) is 5 minutes. -/
theorem c3_stale_window (fetchedAt now : Nat) :
    (Query.servedWithoutRefetch Query.parcelsStaleTime fetchedAt now = true ↔
      now - fetchedAt ≤ 30000) ∧
    (Query.servedWithoutRefetch Query.parcelsStaleTime fetchedAt now = false ↔
      ¬ now - fetchedAt ≤ 30000) ∧
    Query.defaultStaleTime = 5 * 60 * 1000 := by
  refine ⟨?_, ?_, rfl⟩ <;>
    simp [Query.servedWithoutRefetch, Query.parcelsStaleTime]

/-- C4: for every pair (min, max), including the null cases,
updatePriceRange and updateSizeRange store exactly the pair given — no
coercion, no min ≤ max validation, no rejection — and touch no other
filter field. -/
theorem c4_range_updates (s : FilterStore.FilterState) (mn mx : Option Rat) :
    (FilterStore.updatePriceRange s mn mx).filters.priceRange =
      some { min := mn, max := mx } ∧
    (FilterStore.updateSizeRange s mn mx).filters.sizeRange =
      some { min := mn, max := mx } ∧
    (FilterStore.updatePriceRange s mn mx).filters.sizeRange = s.filters.sizeRange ∧
    (FilterStore.updatePriceRange s mn mx).filters.counties = s.filters.counties ∧
    (FilterStore.updateSizeRange s mn mx).filters.priceRange = s.filters.priceRange ∧
    (FilterStore.updateSizeRange s mn mx).filters.counties = s.filters.counties := by
  refine ⟨rfl, rfl, rfl, rfl, rfl, rfl⟩

/-- C5: for every preset P and every prior filter-store state, applyPreset
stores filters equal to P and clears the active preset id. -/
theorem c5_apply_preset (s : FilterStore.FilterState) (p : FilterCriteria) :
    (FilterStore.applyPreset s p).filters = p ∧
    (FilterStore.applyPreset s p).activePreferenceId = none :=
  ⟨rfl, rfl⟩

/-- C6: after any sequence of filter edits from any state, clearFilters
yields exactly the default empty FilterCriteria and a cleared active
preset id. -/
theorem c6_clear_filters (s : FilterStore.FilterState)
    (es : List FilterStore.FilterEdit) :
    (FilterStore.clearFilters (FilterStore.applyEdits s es)).filters =
      { priceRange := some { min := none, max := none }
        sizeRange := some { min := none, max := none }
        counties := some ([] : List String) } ∧
    (FilterStore.clearFilters (FilterStore.applyEdits s es)).activePreferenceId =
      none :=
  ⟨rfl, rfl⟩

/-- C7: with valid credentials — the identity provider yields a session
token and a current user with a non-empty identifier — login resolves,
sets isAuthenticated and stores that user; with invalid credentials — the
provider rejects with a non-empty error message — login rejects, leaves
isAuthenticated false and records that non-empty message. -/
theorem c7_login (s : AuthStore.AuthState) (t : String) (u : User) (m : String)
    (hu : u.id ≠ "") (hm : m ≠ "") :
    (AuthStore.login s (.success t (some u))).2 = true ∧
    (AuthStore.login s (.success t (some u))).1.isAuthenticated = true ∧
    (AuthStore.login s (.success t (some u))).1.user = some u ∧
    ((AuthStore.login s (.success t (some u))).1.user.map User.id ≠ some "") ∧
    (AuthStore.login s (.failure (some m))).2 = false ∧
    (AuthStore.login s (.failure (some m))).1.isAuthenticated = false ∧
    (AuthStore.login s (.failure (some m))).1.error = some m ∧
    ((AuthStore.login s (.failure (some m))).1.error ≠ some "") := by
  refine ⟨rfl, rfl, rfl, ?_, rfl, rfl, rfl, ?_⟩ <;>
    simp [AuthStore.login, hu, hm]

/-- Witness for C7 at concrete inputs. -/
theorem c7_login_witness :
    (AuthStore.login AuthStore.initialState (.success "id-token" (some Samples.user1))).2 =
      true ∧
    (AuthStore.login AuthStore.initialState
        (.success "id-token" (some Samples.user1))).1.isAuthenticated = true ∧
    (AuthStore.login AuthStore.initialState
        (.success "id-token" (some Samples.user1))).1.user = some Samples.user1 ∧
    ((AuthStore.login AuthStore.initialState
        (.success "id-token" (some Samples.user1))).1.user.map User.id ≠ some "") ∧
    (AuthStore.login AuthStore.initialState
        (.failure (some "Incorrect username or password."))).2 = false ∧
    (AuthStore.login AuthStore.initialState
        (.failure (some "Incorrect username or password."))).1.isAuthenticated = false ∧
    (AuthStore.login AuthStore.initialState
        (.failure (some "Incorrect username or password."))).1.error =
      some "Incorrect username or password." ∧
    ((AuthStore.login AuthStore.initialState
        (.failure (some "Incorrect username or password."))).1.error ≠ some "") :=
  c7_login AuthStore.initialState "id-token" Samples.user1
    "Incorrect username or password." (by decide) (by decide)

/-- C8: the persisted slice of the auth store holds exactly the
isAuthenticated flag; it is independent of the user and token fields, so
the credential and the user are never written to client-side persistent
storage, whatever the auth state. -/
theorem c8_persist_only_flag (s : AuthStore.AuthState) (u : Option User)
    (t : Option String) :
    AuthStore.persistedSlice s = { isAuthenticated := s.isAuthenticated } ∧
    AuthStore.persistedSlice { s with user := u, token := t } =
      AuthStore.persistedSlice s :=
  ⟨rfl, rfl⟩

/-- C9: setUser sets isAuthenticated exactly when the user is non-null and
leaves the token unchanged; consequently an auth state with
isAuthenticated = true and token = null is reachable — the flag is derived
from the user field alone, never from token presence. -/
theorem c9_set_user (s : AuthStore.AuthState) (u : Option User) :
    ((AuthStore.setUser s u).isAuthenticated = true ↔ u ≠ none) ∧
    (AuthStore.setUser s u).token = s.token ∧
    (AuthStore.setUser s u).user = u ∧
    ∃ r : AuthStore.AuthState,
      AuthStore.Reachable r ∧ r.isAuthenticated = true ∧ r.token = none := by
  refine ⟨?_, rfl, rfl,
    AuthStore.setUser AuthStore.initialState (some Samples.user1),
    ⟨[.setUser (some Samples.user1)], rfl⟩, rfl, rfl⟩
  simp [AuthStore.setUser, Option.isSome_iff_ne_none]

/-- C10: setActivePreference with a non-empty id copies the matching saved
preference's filters and marks it active; with a non-empty id that matches
nothing it still sets the marker while leaving filters unchanged, so the
marker can point outside savedPreferences; with a null or empty id it only
clears the marker. -/
theorem c10_set_active_preference (s : FilterStore.FilterState) (i : String)
    (p : Preference) (hi : i ≠ "") :
    (s.savedPreferences.find? (fun q => q.id == i) = some p →
      FilterStore.setActivePreference s (some i) =
        { s with activePreferenceId := some i, filters := p.filters }) ∧
    (s.savedPreferences.find? (fun q => q.id == i) = none →
      FilterStore.setActivePreference s (some i) =
        { s with activePreferenceId := some i }) ∧
    FilterStore.setActivePreference s none = { s with activePreferenceId := none } ∧
    FilterStore.setActivePreference s (some "") =
      { s with activePreferenceId := none } := by
  refine ⟨?_, ?_, rfl, ?_⟩
  · intro h
    simp [FilterStore.setActivePreference, hi, h]
  · intro h
    simp [FilterStore.setActivePreference, hi, h]
  · simp [FilterStore.setActivePreference]

/-- Witness for C10 at concrete inputs: a store holding one saved
preference with id "pref-1". -/
theorem c10_set_active_preference_witness :
    (Samples.filterState1.savedPreferences.find? (fun q => q.id == "pref-1") =
        some Samples.pref1 →
      FilterStore.setActivePreference Samples.filterState1 (some "pref-1") =
        { Samples.filterState1 with
            activePreferenceId := some "pref-1"
            filters := Samples.pref1.filters }) ∧
    (Samples.filterState1.savedPreferences.find? (fun q => q.id == "pref-1") = none →
      FilterStore.setActivePreference Samples.filterState1 (some "pref-1") =
        { Samples.filterState1 with activePreferenceId := some "pref-1" }) ∧
    FilterStore.setActivePreference Samples.filterState1 none =
      { Samples.filterState1 with activePreferenceId := none } ∧
    FilterStore.setActivePreference Samples.filterState1 (some "") =
      { Samples.filterState1 with activePreferenceId := none } :=
  c10_set_active_preference Samples.filterState1 "pref-1" Samples.pref1 (by decide)

end DFW
